import Mathlib

set_option maxRecDepth 16384

/-
  Verification of the date tagger/verbalizer grammar in
  tn/english/rules/date.py (a pynini finite-state-transducer grammar).

  The pynini combinators used by the source are embedded as the inductive
  type G below; `run` evaluates a grammar on an input, returning every
  (output, remaining-input) pair of a successful prefix parse, and
  `outputs` keeps the parses that consume the whole input.  This models an
  unweighted FST as the finite relation of (input, output) string pairs it
  accepts; pynini weights never decide membership in the relations built
  by the source (the one weighted construct, add_weight inside a priority
  union, does not change the support of the relation).
-/

namespace TN

/-- Deep embedding of the pynini combinators used by tn/english/rules/date.py.
    cross a b  = pynini.cross(a, b); pynini.accep(s) = cross s s,
    pynutil.insert(s) = cross "" s, pynutil.delete(s) = cross s "".
    tbl l      = pynini.string_file / string_map of the listed pairs.
    chone p f  = a one-character class transducer (DIGIT, TO_LOWER, ...).
    chstar p f = the closure of a one-character class transducer
                 (closure(VCHAR), DELETE_SPACE = closure(delete(" ")), ...).
    seq, alt, opt, comp = concatenation (+), union (|), closure(g, 0, 1),
                 composition (@).
    punion g h = plurals.priority union of g over h with sigma-star:
                 g together with h restricted to inputs outside dom(g).
    diffAcc g h = pynini.difference of the acceptors g and h.
    projIn g   = pynini.project(g, "input").
    esrw f     = an obligatory cdrewrite anchored at end of string, given
                 directly by its whole-string action f. -/
inductive G where
  | cross (a b : String)
  | tbl (l : List (String × String))
  | chone (p : Char → Bool) (f : Char → List Char)
  | chstar (p : Char → Bool) (f : Char → List Char)
  | seq (g h : G)
  | alt (g h : G)
  | opt (g : G)
  | comp (g h : G)
  | punion (g h : G)
  | diffAcc (g h : G)
  | projIn (g : G)
  | esrw (f : List Char → List Char)
  | star (g : G)
  | fail

/-- Prefix parses of the closure of a one-character class transducer:
    zero or more class characters are consumed, each mapped by f. -/
def chstarRun (p : Char → Bool) (f : Char → List Char) : List Char → List (List Char × List Char)
  | [] => [([], [])]
  | c :: rest =>
    ([], c :: rest) ::
      (if p c then (chstarRun p f rest).map (fun pr => (f c ++ pr.1, pr.2)) else [])

/-- Prefix parses of pynini.closure(g): zero or more applications of g,
    bounded by a fuel argument; applications that consume no input are cut,
    which agrees with pynini whenever every parse of g consumes at least
    one character (true of the one closure the source takes, over the
    order-marker deleters of the verbalizer, whose branches both start by
    deleting a nonempty literal). -/
def starAux (rg : List Char → List (List Char × List Char)) :
    Nat → List Char → List (List Char × List Char)
  | 0, input => [([], input)]
  | n + 1, input =>
    ([], input) ::
      (rg input).flatMap (fun pr =>
        if pr.2.length < input.length then
          (starAux rg n pr.2).map (fun qr => (pr.1 ++ qr.1, qr.2))
        else [])

/-- All prefix parses of a grammar on an input: every pair of an output
    string and the unconsumed remainder of the input. -/
def run : G → List Char → List (List Char × List Char)
  | .cross a b, input =>
    if a.data.isPrefixOf input then [(b.data, input.drop a.data.length)] else []
  | .tbl l, input =>
    l.flatMap (fun kv =>
      if kv.1.data.isPrefixOf input then [(kv.2.data, input.drop kv.1.data.length)] else [])
  | .chone p f, input =>
    match input with
    | [] => []
    | c :: rest => if p c then [(f c, rest)] else []
  | .chstar p f, input => chstarRun p f input
  | .seq g h, input =>
    (run g input).flatMap (fun pr => (run h pr.2).map (fun qr => (pr.1 ++ qr.1, qr.2)))
  | .alt g h, input => run g input ++ run h input
  | .opt g, input => ([], input) :: run g input
  | .comp g h, input =>
    (run g input).flatMap (fun pr =>
      ((run h pr.1).filter (fun qr => qr.2.isEmpty)).map (fun qr => (qr.1, pr.2)))
  | .punion g h, input =>
    run g input ++
      (run h input).filter (fun pr =>
        ((run g (input.take (input.length - pr.2.length))).filter
          (fun qr => qr.2.isEmpty)).isEmpty)
  | .diffAcc g h, input =>
    (run g input).filterMap (fun pr =>
      let consumed := input.take (input.length - pr.2.length)
      if ((run h consumed).filter (fun qr => qr.2.isEmpty)).isEmpty then
        some (consumed, pr.2)
      else none)
  | .projIn g, input =>
    (run g input).map (fun pr => (input.take (input.length - pr.2.length), pr.2))
  | .esrw f, input =>
    (List.range (input.length + 1)).map (fun i => (f (input.take i), input.drop i))
  | .star g, input => starAux (run g) input.length input
  | .fail, _ => []

/-- The outputs of a grammar on an input: outputs of the prefix parses
    that consumed the whole input. -/
def outputs (g : G) (s : String) : List String :=
  ((run g s.data).filter (fun pr => pr.2.isEmpty)).map (fun pr => String.mk pr.1)

/-- pynini.accep. -/
def accep (s : String) : G := G.cross s s

/-- pynutil.insert. -/
def ins (s : String) : G := G.cross "" s

/-- pynutil.delete. -/
def del (s : String) : G := G.cross s ""

/-- Modelled from the spec: Processor.INSERT_SPACE (tn/processor.py is not
    under src/), insertion of a single space. -/
def INSERT_SPACE : G := ins " "

/-- Modelled from the spec: Processor.DELETE_SPACE, deletion of any run of
    spaces (zero or more). -/
def DELETE_SPACE : G := G.chstar (fun c => c == ' ') (fun _ => [])

/-- Modelled from the spec: Processor.DELETE_EXTRA_SPACE, rewriting one or
    more spaces to a single space. -/
def DELETE_EXTRA_SPACE : G :=
  G.seq (G.chone (fun c => c == ' ') (fun _ => [' '])) (G.chstar (fun c => c == ' ') (fun _ => []))

/-- Modelled from the spec: Processor.DIGIT, the acceptor of one decimal digit. -/
def DIGIT : G := G.chone Char.isDigit (fun c => [c])

/-- Modelled from the spec: pynini.closure(Processor.VCHAR), the acceptor of
    any string. -/
def VCHAR_STAR : G := G.chstar (fun _ => true) (fun c => [c])

/-- Modelled from the spec: pynini.closure(Processor.NOT_QUOTE, 1), the
    acceptor of one or more characters other than a double quote. -/
def NOT_QUOTE_PLUS : G :=
  G.seq (G.chone (fun c => c != '"') (fun c => [c])) (G.chstar (fun c => c != '"') (fun c => [c]))

/-- Modelled from the spec: Processor.TO_LOWER, one upper-case letter
    rewritten to its lower-case form. -/
def TO_LOWER : G := G.chone Char.isUpper (fun c => [c.toLower])

/-- Modelled from the spec: Processor.LOWER, the acceptor of one lower-case
    letter. -/
def LOWER : G := G.chone Char.isLower (fun c => [c])

/-- Spoken word for a digit 1 to 9. -/
def onesWord : Nat → String
  | 1 => "one" | 2 => "two" | 3 => "three" | 4 => "four" | 5 => "five"
  | 6 => "six" | 7 => "seven" | 8 => "eight" | 9 => "nine" | _ => ""

/-- Spoken word for a teen numeral 10 to 19. -/
def teenWord : Nat → String
  | 10 => "ten" | 11 => "eleven" | 12 => "twelve" | 13 => "thirteen"
  | 14 => "fourteen" | 15 => "fifteen" | 16 => "sixteen" | 17 => "seventeen"
  | 18 => "eighteen" | 19 => "nineteen" | _ => ""

/-- Spoken word for a tens numeral 20, 30, ..., 90. -/
def tensWord : Nat → String
  | 2 => "twenty" | 3 => "thirty" | 4 => "forty" | 5 => "fifty"
  | 6 => "sixty" | 7 => "seventy" | 8 => "eighty" | 9 => "ninety" | _ => ""

/-- Spoken cardinal word for 1 to 99 (lowercase, single spaces). -/
def numWord (n : Nat) : String :=
  if n < 10 then onesWord n
  else if n < 20 then teenWord n
  else if n % 10 = 0 then tensWord (n / 10)
  else tensWord (n / 10) ++ " " ++ onesWord (n % 10)

/-- Modelled from the spec: the digit table english/data/number/digit.tsv
    after pynini.invert, mapping the numerals 1 to 9 to their spoken words
    (the data file is not under src/; the spec lists digit tables for 0 to 9
    with zero handled by other grammars). -/
def digitTbl : List (String × String) :=
  ((List.range 10).drop 1).map (fun n => (toString n, onesWord n))

/-- Modelled from the spec: the teen table english/data/number/teen.tsv
    after pynini.invert, mapping 10 to 19 to their spoken words. -/
def teenTbl : List (String × String) :=
  ((List.range 20).drop 10).map (fun n => (toString n, teenWord n))

/-- Modelled from the spec: the tens table english/data/number/ty.tsv
    after pynini.invert, mapping a tens digit 2, ..., 9 to its tens word
    twenty, ..., ninety (the trailing zero of the numeral is handled by the
    grammars that use the table). -/
def tiesTbl : List (String × String) :=
  ((List.range 10).drop 2).map (fun n => (toString n, tensWord n))

/-- graph_teen of date.py (module level). -/
def graph_teen : G := G.tbl teenTbl

/-- graph_digit of date.py (module level). -/
def graph_digit : G := G.tbl digitTbl

/-- ties_graph of date.py (module level). -/
def ties_graph : G := G.tbl tiesTbl

/-- Modelled from the spec: the year-suffix table
    english/data/date/year_suffix.tsv after augment_labels_with_punct_at_end,
    mapping an era marker (with or without trailing punctuation) to its
    spoken era phrase (the data file is not under src/). -/
def yearSuffixTbl : List (String × String) :=
  [("A.D.", "A D"), ("A.D.,", "A D"), ("B.C.", "B C"), ("B.C.,", "B C")]

/-- year_suffix of date.py (module level). -/
def year_suffix : G := G.tbl yearSuffixTbl

/-- The action of the obligatory end-of-string rewrite
    cdrewrite(cross("y", "ies") | insert("s"), "", "[EOS]", sigma-star)
    used by get_four_digit_year_graph: a trailing letter y becomes "ies",
    otherwise an "s" is appended (the decade pluralization of the spec). -/
def yIesOrS (w : List Char) : List Char :=
  if w.getLast? = some 'y' then w.dropLast ++ "ies".data else w ++ "s".data

/-- The action of the obligatory end-of-string rewrite
    cdrewrite(cross("y", "ies"), "", "[EOS]", sigma-star) used by
    get_two_digit_year_with_s_graph: a trailing letter y becomes "ies",
    all other strings pass unchanged. -/
def yIes (w : List Char) : List Char :=
  if w.getLast? = some 'y' then w.dropLast ++ "ies".data else w

/-- get_ties_graph of date.py (lines 37-54): two-digit numeral to spoken
    form; the leading-zero branch inserts "oh" when deterministic and
    offers "oh" or "zero" otherwise. -/
def get_ties_graph (deterministic : Bool) : G :=
  let graph := G.alt (G.alt graph_teen (G.seq ties_graph (del "0")))
    (G.seq (G.seq ties_graph INSERT_SPACE) graph_digit)
  if deterministic then
    G.alt graph (G.seq (G.seq (G.cross "0" "oh") INSERT_SPACE) graph_digit)
  else
    G.alt graph
      (G.seq (G.seq (G.alt (G.cross "0" "oh") (G.cross "0" "zero")) INSERT_SPACE) graph_digit)

/-- get_four_digit_year_graph of date.py (lines 57-99): pairs of two-digit
    groups, the hundred form, the decade-plural forms, and the thousand
    forms; in deterministic mode the thousand forms take strict priority
    over the rest, otherwise they are unioned in. -/
def get_four_digit_year_graph (deterministic : Bool) : G :=
  let graph_ties := get_ties_graph deterministic
  let graph_with_s :=
    G.seq
      (G.alt (G.seq (G.seq graph_ties INSERT_SPACE) graph_ties)
        (G.seq (G.seq graph_teen INSERT_SPACE) (G.alt ties_graph (G.cross "1" "ten"))))
      (del "0s")
  let graph_with_s :=
    G.alt graph_with_s
      (G.seq (G.seq (G.seq (G.alt graph_teen graph_ties) INSERT_SPACE)
        (G.cross "00" "hundred")) (del "s"))
  let graph_with_s := G.comp graph_with_s (G.esrw yIesOrS)
  let graph := G.seq (G.seq graph_ties INSERT_SPACE) graph_ties
  let graph :=
    G.alt graph
      (G.seq (G.seq (G.alt graph_teen graph_ties) INSERT_SPACE) (G.cross "00" "hundred"))
  let thousand_graph :=
    G.seq (G.seq (G.seq graph_digit INSERT_SPACE) (G.cross "00" "thousand"))
      (G.alt (del "0") (G.seq INSERT_SPACE graph_digit))
  let thousand_graph :=
    G.alt thousand_graph
      (G.seq (G.seq (G.seq (G.seq graph_digit INSERT_SPACE) (G.cross "000" "thousand"))
        (G.opt (del " "))) (accep "s"))
  let graph := G.alt graph graph_with_s
  if deterministic then G.punion thousand_graph graph
  else G.alt graph thousand_graph

/-- get_two_digit_year_with_s_graph of date.py (lines 102-108): an
    optional leading apostrophe, a tens digit with "0s" deleted, and the
    decade pluralization rewrite. -/
def _get_two_digit_year_with_s_graph : G :=
  G.seq (G.opt (del "\x27"))
    (G.comp (G.seq ties_graph (del "0s")) (G.esrw yIes))

/-- Modelled from the spec: the Numeral Collaborator cardinal spell-out
    Cardinal.graph_hundred_component_at_least_one_none_zero_digit
    (tn/english/rules/cardinal.py is not under src/): digit strings without
    a leading zero mapped to lowercase spoken words with single spaces;
    given for the values 1 to 99, the widths at which the date grammars
    compose it (day numerals up to 31 and two-digit cardinal years). -/
def cardinalTbl : List (String × String) :=
  ((List.range 100).drop 1).map (fun n => (toString n, numWord n))

/-- cardinal_graph of Date.build_tagger (line 208). -/
def cardinal_graph : G := G.tbl cardinalTbl

/-- Spoken word of one digit with zero spelled "zero". -/
def digitWordZ (n : Nat) : String := if n = 0 then "zero" else onesWord n

/-- Modelled from the spec: Cardinal.single_digits_graph, the
    digit-by-digit spelling of a digit string; given on two-digit strings,
    the width at which the date grammar composes it (the bare two-digit
    year of the spec, e.g. "00"). -/
def singleDigitsTbl : List (String × String) :=
  (List.range 100).map (fun n =>
    (toString (n / 10) ++ toString (n % 10), digitWordZ (n / 10) ++ " " ++ digitWordZ (n % 10)))

/-- single_digits_graph used by Date.build_tagger (line 235). -/
def single_digits_graph : G := G.tbl singleDigitsTbl

/-- three_digit_year of _get_year_graph (lines 128-129): a digit and a
    two-digit group, both spelled by the cardinal graph. -/
def three_digit_year : G :=
  G.seq (G.seq (G.comp DIGIT cardinal_graph) INSERT_SPACE)
    (G.comp (G.seq DIGIT DIGIT) cardinal_graph)

/-- year_with_suffix of _get_year_graph (lines 130-133): a four-digit or
    three-digit year followed by an era phrase; the four-digit sub-grammar
    is built with deterministic=True unconditionally. -/
def year_with_suffix : G :=
  G.seq (G.seq (G.seq (G.alt (get_four_digit_year_graph true) three_digit_year)
    DELETE_SPACE) INSERT_SPACE) year_suffix

/-- The mode-dependent part of _get_year_graph (lines 122-126): the
    four-digit graph restricted to numerals starting 1 or 2 with an
    optional plural "s", and the apostrophe decade form. -/
def year_graph_mode_part (deterministic : Bool) : G :=
  let graph := get_four_digit_year_graph deterministic
  let graph :=
    G.comp
      (G.seq (G.seq (G.alt (accep "1") (accep "2")) (G.seq (G.seq DIGIT DIGIT) DIGIT))
        (G.opt (G.alt (G.cross " s" "s") (accep "s"))))
      graph
  G.alt graph _get_two_digit_year_with_s_graph

/-- _get_year_graph of date.py (lines 111-135): the mode-dependent year
    forms together with the era-suffixed form. -/
def _get_year_graph (deterministic : Bool) : G :=
  G.alt (year_graph_mode_part deterministic) year_with_suffix

/-- _get_two_digit_year of date.py (lines 138-142): a two-digit numeral
    resolved by the cardinal graph with priority over the digit-by-digit
    graph. -/
def _get_two_digit_year : G :=
  G.comp (G.seq DIGIT DIGIT) (G.punion cardinal_graph single_digits_graph)

/-- _get_financial_period_graph of date.py (lines 145-157). -/
def _get_financial_period_graph : G :=
  let h_ordinals := G.alt (G.cross "1" "first") (G.cross "2" "second")
  let q_ordinals := G.alt (G.alt h_ordinals (G.cross "3" "third")) (G.cross "4" "fourth")
  let h_graph := G.seq h_ordinals (G.cross "H" " half")
  let q_graph := G.seq q_ordinals (G.cross "Q" " quarter")
  G.alt h_graph q_graph

/-- Modelled from the spec: the month-name table
    english/data/date/month_name.tsv, mapping each lowercase full month
    name to the canonical spoken month word (the data file is not under
    src/). -/
def monthNameTbl : List (String × String) :=
  [("january", "january"), ("february", "february"), ("march", "march"),
   ("april", "april"), ("may", "may"), ("june", "june"), ("july", "july"),
   ("august", "august"), ("september", "september"), ("october", "october"),
   ("november", "november"), ("december", "december")]

/-- Modelled from the spec: the month-abbreviation table
    english/data/date/month_abbr.tsv, mapping each lowercase abbreviation
    to the canonical spoken month word. -/
def monthAbbrTbl : List (String × String) :=
  [("jan", "january"), ("feb", "february"), ("mar", "march"),
   ("apr", "april"), ("may", "may"), ("jun", "june"), ("jul", "july"),
   ("aug", "august"), ("sep", "september"), ("oct", "october"),
   ("nov", "november"), ("dec", "december")]

/-- Modelled from the spec: the month-number table
    english/data/date/month_number.tsv, mapping the numerals 1 to 12, and
    the zero-padded 01 to 09, to the canonical spoken month word. -/
def monthNumberTbl : List (String × String) :=
  [("1", "january"), ("01", "january"), ("2", "february"), ("02", "february"),
   ("3", "march"), ("03", "march"), ("4", "april"), ("04", "april"),
   ("5", "may"), ("05", "may"), ("6", "june"), ("06", "june"),
   ("7", "july"), ("07", "july"), ("8", "august"), ("08", "august"),
   ("9", "september"), ("09", "september"), ("10", "october"),
   ("11", "november"), ("12", "december")]

/-- TO_LOWER ** (2, ...) of the source: at least two upper-case letters,
    all rewritten to lower case. -/
def toLower2plus : G :=
  G.seq (G.seq TO_LOWER TO_LOWER) (G.chstar Char.isUpper (fun c => [c.toLower]))

/-- pynini.closure(Processor.LOWER, 1): one or more lower-case letters. -/
def LOWER_PLUS : G := G.seq LOWER (G.chstar Char.isLower (fun c => [c]))

/-- month_graph of Date.build_tagger (lines 186-204): full names in
    lowercase, capitalized and all-caps variants, and the abbreviation
    graph with the same case variants and an optional trailing period. -/
def month_graph : G :=
  let mg := G.tbl monthNameTbl
  let mg :=
    G.alt mg
      (G.alt (G.comp (G.seq TO_LOWER VCHAR_STAR) (G.tbl monthNameTbl))
        (G.comp toLower2plus (G.tbl monthNameTbl)))
  let abbr := G.tbl monthAbbrTbl
  let abbr :=
    G.seq
      (G.alt (G.alt abbr (G.comp (G.seq TO_LOWER LOWER_PLUS) (G.tbl monthAbbrTbl)))
        (G.comp toLower2plus (G.tbl monthAbbrTbl)))
      (G.opt (del "."))
  G.alt mg abbr

/-- month_graph wrapped as a tagged month field (lines 216-217). -/
def month_graph_tagged : G :=
  G.seq (G.seq (ins "month: \"") month_graph) (ins "\"")

/-- month_numbers_graph of Date.build_tagger (lines 218-219). -/
def month_numbers_graph : G :=
  G.seq (G.seq (ins "month: \"") (G.tbl monthNumberTbl)) (ins "\"")

/-- pynutil.delete(endings) for the ordinal endings rd, th, st, nd and
    their upper-case forms (lines 221-223). -/
def delEndings : G :=
  G.alt (G.alt (G.alt (del "rd") (del "th")) (G.alt (del "st") (del "nd")))
    (G.alt (G.alt (del "RD") (del "TH")) (G.alt (del "ST") (del "ND")))

/-- The day-numeral shape of day_graph (lines 228-229): a digit preceded
    by 1 or 2, a bare digit, or 3 followed by 0 or 1. -/
def dayShape : G :=
  G.alt (G.alt (G.seq (G.alt (accep "1") (accep "2")) DIGIT) DIGIT)
    (G.seq (accep "3") (G.alt (accep "0") (accep "1")))

/-- day_graph of Date.build_tagger (lines 225-231). -/
def day_graph : G :=
  G.seq
    (G.seq (G.seq (ins "day: \"") (G.opt (del "the ")))
      (G.comp (G.seq dayShape (G.opt delEndings)) cardinal_graph))
    (ins "\"")

/-- The language of dayShape as a predicate on character strings: one
    digit, a digit preceded by 1 or 2, or 3 followed by 0 or 1. -/
def dayShapeOK : List Char → Bool
  | [c] => c.isDigit
  | [c1, c2] =>
    ((c1 == '1' || c1 == '2') && c2.isDigit) || (c1 == '3' && (c2 == '0' || c2 == '1'))
  | _ => false

/-- two_digit_year wrapped as a tagged year field (lines 233-237). -/
def two_digit_year_tagged : G :=
  G.seq (G.seq (ins "year: \"") _get_two_digit_year) (ins "\"")

/-- graph_year of Date.build_tagger (lines 239-243): a space-separated or
    comma-separated year continuation after a day field. -/
def graph_year (deterministic : Bool) : G :=
  G.alt
    (G.seq (G.seq (G.seq (ins " year: \"") (del " ")) (_get_year_graph deterministic))
      (ins "\""))
    (G.seq (G.seq (G.seq (G.seq (ins " year: \"") (accep ",")) (G.opt (accep " ")))
      (_get_year_graph deterministic)) (ins "\""))

/-- year_graph wrapped as a tagged year field (lines 246-247). -/
def year_graph_tagged (deterministic : Bool) : G :=
  G.seq (G.seq (ins "year: \"") (_get_year_graph deterministic)) (ins "\"")

/-- The numeric month-day-year branch of graph_mdy for one separator
    (lines 260-266). -/
def mdyNum (deterministic : Bool) (x : String) : G :=
  G.seq
    (G.seq
      (G.seq (G.seq (G.seq (G.seq month_numbers_graph (del x)) INSERT_SPACE)
        (G.opt (del "0"))) day_graph)
      (G.seq (del x) INSERT_SPACE))
    (G.alt (year_graph_tagged deterministic) two_digit_year_tagged)

/-- graph_mdy of Date.build_tagger (lines 249-266). -/
def graph_mdy (deterministic : Bool) : G :=
  let m1 :=
    G.seq month_graph_tagged
      (G.alt
        (G.alt (G.alt (G.seq DELETE_EXTRA_SPACE day_graph)
          (G.seq (accep " ") day_graph)) (graph_year deterministic))
        (G.seq (G.seq DELETE_EXTRA_SPACE day_graph) (graph_year deterministic)))
  let m2 :=
    G.seq (G.seq (G.seq month_graph_tagged (G.cross "-" " ")) day_graph)
      (G.opt (G.comp (G.seq (G.cross "-" " ") VCHAR_STAR) (graph_year deterministic)))
  G.alt (G.alt (G.alt (G.alt m1 m2) (mdyNum deterministic "-"))
    (mdyNum deterministic "/")) (mdyNum deterministic ".")

/-- day_ex_month of Date.build_tagger (lines 269-270): two-digit strings
    outside the month-number table, composed with day_graph. -/
def day_ex_month : G :=
  G.comp (G.diffAcc (G.seq DIGIT DIGIT) (G.projIn month_numbers_graph)) day_graph

/-- The numeric day-month-year branch of graph_dmy for one separator
    (lines 271-275). -/
def dmyNum (deterministic : Bool) (x : String) : G :=
  G.seq
    (G.seq (G.seq (G.seq (G.seq day_ex_month (del x)) INSERT_SPACE)
      month_numbers_graph) (G.seq (del x) INSERT_SPACE))
    (G.alt (year_graph_tagged deterministic) two_digit_year_tagged)

/-- graph_dmy of Date.build_tagger (lines 268-275). -/
def graph_dmy (deterministic : Bool) : G :=
  let d1 :=
    G.seq (G.seq (G.seq day_graph DELETE_EXTRA_SPACE) month_graph_tagged)
      (G.opt (graph_year deterministic))
  G.alt (G.alt (G.alt d1 (dmyNum deterministic "-")) (dmyNum deterministic "/"))
    (dmyNum deterministic ".")

/-- The numeric year-month-day branch of graph_ymd for one separator
    (lines 278-284). -/
def ymdNum (deterministic : Bool) (x : String) : G :=
  G.seq
    (G.seq
      (G.seq (G.seq (G.seq (G.seq (G.alt (year_graph_tagged deterministic)
        two_digit_year_tagged) (del x)) INSERT_SPACE) month_numbers_graph)
        (G.seq (del x) INSERT_SPACE))
      (G.opt (del "0")))
    day_graph

/-- graph_ymd of Date.build_tagger (lines 277-284); the initial
    pynini.accep("") of line 277 stays in the union. -/
def graph_ymd (deterministic : Bool) : G :=
  G.alt (G.alt (G.alt (accep "") (ymdNum deterministic "-"))
    (ymdNum deterministic "/")) (ymdNum deterministic ".")

/-- m_sep_d of Date.build_tagger (lines 291-294), the bare month/day form
    assigned only in the non-deterministic branch. -/
def m_sep_d : G :=
  G.seq
    (G.seq (G.seq (G.seq month_numbers_graph (G.alt (del "-") (del "/")))
      INSERT_SPACE) (G.opt (del "0")))
    day_graph

/-- graph_fy of Date.build_tagger (lines 299-301), the financial period
    followed by a two-digit year. -/
def graph_fy : G :=
  G.seq
    (G.seq (G.seq (G.seq (ins "text: \"") _get_financial_period_graph) (ins "\""))
      INSERT_SPACE)
    two_digit_year_tagged

/-- The month column of load_labels(month_name.tsv) driving the reorder
    lattice loop (lines 310-313). -/
def monthLabels : List String := monthNameTbl.map (fun kv => kv.1)

/-- Modelled from the spec: the day column of
    english/data/date/day.tsv, the valid-day set of spoken day words one,
    two, ..., thirty one, driving the reorder lattice loop (lines 314-317;
    the data file is not under src/). -/
def dayLabels : List String := ((List.range 32).drop 1).map numWord

/-- The (month, day) pairs enumerated by the nested lattice loop, months
    outer and days inner. -/
def mdPairs : List (String × String) :=
  monthLabels.flatMap (fun m => dayLabels.map (fun d => (m, d)))

/-- The union built by the loop accumulation pattern
    graph = curr if graph is None else union(curr, graph): later
    iterations stand leftmost. -/
def unionRev : List G → G
  | [] => G.fail
  | g :: gs => gs.foldl (fun acc c => G.alt c acc) g

/-- The record rewriter of ymd_to_mdy_curr (lines 318-323) for one
    (month, day) pair. -/
def ymd_to_mdy_rw (m d : String) : G :=
  G.seq
    (G.seq (G.seq (ins ("month: \"" ++ m ++ "\" day: \"" ++ d ++ "\" "))
      (accep "year:")) VCHAR_STAR)
    (del (" month: \"" ++ m ++ "\" day: \"" ++ d ++ "\""))

/-- ymd_to_mdy_curr of the lattice loop (lines 318-326) for one
    (month, day) pair. -/
def ymd_to_mdy_curr (deterministic : Bool) (m d : String) : G :=
  G.comp (graph_ymd deterministic) (ymd_to_mdy_rw m d)

/-- The record rewriter of ymd_to_dmy_curr (lines 331-336) for one
    (month, day) pair. -/
def ymd_to_dmy_rw (m d : String) : G :=
  G.seq
    (G.seq (G.seq (ins ("day: \"" ++ d ++ "\" month: \"" ++ m ++ "\" "))
      (accep "year:")) VCHAR_STAR)
    (del (" month: \"" ++ m ++ "\" day: \"" ++ d ++ "\""))

/-- ymd_to_dmy_curr of the lattice loop (lines 331-340) for one
    (month, day) pair. -/
def ymd_to_dmy_curr (deterministic : Bool) (m d : String) : G :=
  G.comp (graph_ymd deterministic) (ymd_to_dmy_rw m d)

/-- The record rewriter of mdy_to_dmy_curr (lines 345-350) for one
    (month, day) pair. -/
def mdy_to_dmy_rw (m d : String) : G :=
  G.seq
    (G.seq (G.seq (ins ("day: \"" ++ d ++ "\" month: \"" ++ m ++ "\" "))
      (del ("month: \"" ++ m ++ "\" day: \"" ++ d ++ "\" "))) (accep "year:"))
    VCHAR_STAR

/-- mdy_to_dmy_curr of the lattice loop (lines 345-353) for one
    (month, day) pair. -/
def mdy_to_dmy_curr (deterministic : Bool) (m d : String) : G :=
  G.comp (graph_mdy deterministic) (mdy_to_dmy_rw m d)

/-- The record rewriter of md_to_dm_curr (lines 359-362) for one
    (month, day) pair. -/
def md_to_dm_rw (m d : String) : G :=
  G.seq (ins ("day: \"" ++ d ++ "\" month: \"" ++ m ++ "\""))
    (del ("month: \"" ++ m ++ "\" day: \"" ++ d ++ "\""))

/-- md_to_dm_curr of the lattice loop (lines 359-364) for one
    (month, day) pair; composed over m_sep_d. -/
def md_to_dm_curr (m d : String) : G :=
  G.comp m_sep_d (md_to_dm_rw m d)

/-- ymd_to_mdy_graph accumulated over all pairs (lines 327-329). -/
def ymd_to_mdy_graph (deterministic : Bool) : G :=
  unionRev (mdPairs.map (fun p => ymd_to_mdy_curr deterministic p.1 p.2))

/-- ymd_to_dmy_graph accumulated over all pairs (lines 341-343). -/
def ymd_to_dmy_graph (deterministic : Bool) : G :=
  unionRev (mdPairs.map (fun p => ymd_to_dmy_curr deterministic p.1 p.2))

/-- mdy_to_dmy_graph accumulated over all pairs (lines 354-357). -/
def mdy_to_dmy_graph (deterministic : Bool) : G :=
  unionRev (mdPairs.map (fun p => mdy_to_dmy_curr deterministic p.1 p.2))

/-- md_to_dm_graph accumulated over all pairs (lines 366-368). -/
def md_to_dm_graph : G :=
  unionRev (mdPairs.map (fun p => md_to_dm_curr p.1 p.2))

/-- The pre-lattice part of the final tagger union of the deterministic
    branch of Date.build_tagger (lines 286-303): the preserve_order marker
    is appended unconditionally to the MDY/DMY families only, then the
    year-only and financial-period families are unioned in without the
    marker. -/
def final_graph_det_core : G :=
  G.alt
    (G.seq (G.alt (graph_mdy true) (graph_dmy true))
      (ins " preserve_order: \"true\""))
    (G.alt (year_graph_tagged true) graph_fy)

/-- The final tagger union of the deterministic branch of
    Date.build_tagger (lines 286-303 and 372-373): the core families plus
    the YMD-to-MDY lattice. -/
def final_graph_det : G :=
  G.alt final_graph_det_core (ymd_to_mdy_graph true)

/-- The pre-lattice part of the final tagger union of the
    non-deterministic branch of Date.build_tagger (lines 286-303): an
    optional preserve_order marker on the MDY/DMY families, the bare
    month/day form, and the year-only and financial-period families. -/
def final_graph_nondet_core : G :=
  G.alt
    (G.alt
      (G.seq (G.alt (graph_mdy false) (graph_dmy false))
        (G.opt (ins " preserve_order: \"true\"")))
      m_sep_d)
    (G.alt (year_graph_tagged false) graph_fy)

/-- The final tagger union of the non-deterministic branch of
    Date.build_tagger (lines 286-303 and 370-371): the core families plus
    the MDY-to-DMY, bare month/day and YMD-to-DMY lattices. -/
def final_graph_nondet : G :=
  G.alt final_graph_nondet_core
    (G.alt (G.alt (mdy_to_dmy_graph false) md_to_dm_graph)
      (ymd_to_dmy_graph false))

/-- Embedding of the control flow of Date.build_tagger (lines 173-376).
    In Python the local variable m_sep_d is assigned only inside the
    non-deterministic branch (lines 288-295), while the reorder-lattice
    loop reads it unconditionally to build md_to_dm_curr (line 363);
    reading a never-assigned local raises NameError, so the deterministic
    construction cannot reach the final assignment of line 376.  On
    success the final tagger grammar (before add_tokens) is returned. -/
def build_tagger (deterministic : Bool) : Except String G :=
  let m_sep_d_local : Option G := if deterministic then none else some m_sep_d
  match m_sep_d_local with
  | none => Except.error "NameError: name m_sep_d is not defined"
  | some _ =>
    Except.ok (if deterministic then final_graph_det else final_graph_nondet)

/-- Spoken ordinal word for a digit 1 to 9. -/
def ordOnes : Nat → String
  | 1 => "first" | 2 => "second" | 3 => "third" | 4 => "fourth" | 5 => "fifth"
  | 6 => "sixth" | 7 => "seventh" | 8 => "eighth" | 9 => "ninth" | _ => ""

/-- Spoken ordinal word for 1 to 31. -/
def ordWord (n : Nat) : String :=
  if n < 10 then ordOnes n
  else if n = 12 then "twelfth"
  else if n < 20 then numWord n ++ "th"
  else if n = 20 then "twentieth"
  else if n = 30 then "thirtieth"
  else tensWord (n / 10) ++ " " ++ ordOnes (n % 10)

/-- Modelled from the spec: Ordinal.suffix, the Day-Ordinal Table mapping
    a spoken cardinal day word to its spoken ordinal word
    (tn/english/rules/ordinal.py is not under src/); given for 1 to 31,
    the valid-day set. -/
def ordinalSuffixTbl : List (String × String) :=
  ((List.range 32).drop 1).map (fun n => (numWord n, ordWord n))

/-- day_cardinal of Date.build_verbalizer (lines 386-389). -/
def day_cardinal : G :=
  G.seq (G.seq (G.seq (G.seq (del "day:") DELETE_SPACE) (del "\"")) NOT_QUOTE_PLUS)
    (del "\"")

/-- day of Date.build_verbalizer (line 390), the cardinal day word
    composed with the ordinal suffix map. -/
def dayV : G := G.comp day_cardinal (G.tbl ordinalSuffixTbl)

/-- period of Date.build_verbalizer (lines 391-392). -/
def periodV : G :=
  G.seq (G.seq (G.seq (G.seq (del "text:") DELETE_SPACE) (del "\"")) NOT_QUOTE_PLUS)
    (del "\"")

/-- month of Date.build_verbalizer (lines 393-394). -/
def monthV : G :=
  G.seq (G.seq (G.seq (G.seq (del "month:") DELETE_SPACE) (del "\"")) NOT_QUOTE_PLUS)
    (del "\"")

/-- year of Date.build_verbalizer (lines 396-398). -/
def yearV : G :=
  G.seq
    (G.seq (G.seq (G.seq (G.seq (del "year:") DELETE_SPACE) (del "\"")) NOT_QUOTE_PLUS)
      DELETE_SPACE)
    (del "\"")

/-- graph_fy of Date.build_verbalizer (lines 400-402). -/
def graph_fy_v : G :=
  G.seq (G.seq (G.seq (ins "the ") periodV) (ins " of"))
    (G.opt (G.seq DELETE_EXTRA_SPACE yearV))

/-- graph_mdy of Date.build_verbalizer (lines 404-413); the
    non-deterministic mode also offers the bare cardinal day word. -/
def graph_mdy_v (deterministic : Bool) : G :=
  let base :=
    G.seq (G.seq monthV (G.opt (G.seq DELETE_EXTRA_SPACE dayV)))
      (G.opt (G.seq DELETE_EXTRA_SPACE yearV))
  if deterministic then base
  else
    G.alt base
      (G.seq (G.seq monthV (G.opt (G.seq DELETE_EXTRA_SPACE day_cardinal)))
        (G.opt (G.seq DELETE_EXTRA_SPACE yearV)))

/-- graph_dmy of Date.build_verbalizer (lines 415-418). -/
def graph_dmy_v : G :=
  G.seq
    (G.seq (G.seq (G.seq (G.seq (ins "the ") dayV) DELETE_EXTRA_SPACE)
      (ins "of ")) monthV)
    (G.opt (G.seq DELETE_EXTRA_SPACE yearV))

/-- optional_preserve_order of Date.build_verbalizer (lines 420-425): the
    closure of the deleters of the preserve_order and field_order
    fields. -/
def optional_preserve_order : G :=
  G.star
    (G.alt
      (G.seq (G.seq (G.seq (del "preserve_order:") DELETE_SPACE)
        (del "\"true\"")) DELETE_SPACE)
      (G.seq
        (G.seq (G.seq (G.seq (G.seq (del "field_order:") DELETE_SPACE) (del "\""))
          (G.chone (fun c => c != '"') (fun c => [c]))) (del "\""))
        DELETE_SPACE))

/-- The final verbalizer union of Date.build_verbalizer (lines 427-430):
    the month-first rendering takes priority over the weighted day-first
    rendering (the 0.0001 weight of add_weight does not change the support
    of the relation), unioned with the year-only and financial-period
    renderings, followed by space deletion and the order-marker
    deleters. -/
def final_verbalizer (deterministic : Bool) : G :=
  G.seq
    (G.seq
      (G.alt (G.alt (G.punion (graph_mdy_v deterministic) graph_dmy_v) yearV)
        graph_fy_v)
      DELETE_SPACE)
    optional_preserve_order

/-- The composition step of run on G.comp, abstracted over the parses of
    the left grammar; definitionally equal to the comp case of run. -/
def compRunWith (R : List (List Char × List Char)) (h : G) :
    List (List Char × List Char) :=
  R.flatMap (fun pr =>
    ((run h pr.1).filter (fun qr => qr.2.isEmpty)).map (fun qr => (qr.1, pr.2)))

theorem run_comp_eq (g h : G) (input : List Char) :
    run (G.comp g h) input = compRunWith (run g input) h := rfl

theorem outputs_alt (g h : G) (s : String) :
    outputs (G.alt g h) s = outputs g s ++ outputs h s := by
  simp [outputs, run, List.filter_append]

theorem run_foldl_alt (l : List G) (g0 : G) (input : List Char) :
    run (l.foldl (fun acc c => G.alt c acc) g0) input
      = l.reverse.flatMap (fun g => run g input) ++ run g0 input := by
  induction l generalizing g0 with
  | nil => simp
  | cons c cs ih =>
    rw [List.foldl_cons, ih (G.alt c g0)]
    simp [run, List.flatMap_append]

theorem run_unionRev_map {α : Type} (f : α → G) (l : List α) (input : List Char) :
    run (unionRev (l.map f)) input
      = l.reverse.flatMap (fun a => run (f a) input) := by
  cases l with
  | nil => simp [unionRev, run]
  | cons x xs =>
    rw [List.map_cons]
    show run (xs.map f |>.foldl (fun acc c => G.alt c acc) (f x)) input = _
    rw [run_foldl_alt]
    rw [← List.map_reverse, List.flatMap_map]
    simp [List.flatMap_append, run]

theorem run_lattice {α : Type} (base : G) (rwF : α → G) (l : List α)
    (input : List Char) (R : List (List Char × List Char))
    (hR : run base input = R) :
    run (unionRev (l.map (fun p => G.comp base (rwF p)))) input
      = l.reverse.flatMap (fun p => compRunWith R (rwF p)) := by
  rw [run_unionRev_map]
  simp only [run_comp_eq, hR]

theorem outputs_of_run (g : G) (s : String) (R : List (List Char × List Char))
    (h : run g s.data = R) :
    outputs g s = (R.filter (fun pr => pr.2.isEmpty)).map (fun pr => String.mk pr.1) := by
  rw [outputs, h]

theorem run_ymd_to_mdy (det : Bool) (input : List Char)
    (R : List (List Char × List Char)) (hR : run (graph_ymd det) input = R) :
    run (ymd_to_mdy_graph det) input
      = mdPairs.reverse.flatMap (fun p => compRunWith R (ymd_to_mdy_rw p.1 p.2)) := by
  have h1 : ymd_to_mdy_graph det
      = unionRev (mdPairs.map (fun p => G.comp (graph_ymd det) (ymd_to_mdy_rw p.1 p.2))) := by
    simp only [ymd_to_mdy_graph, ymd_to_mdy_curr]
  rw [h1, run_unionRev_map]
  simp only [run_comp_eq, hR]

theorem run_ymd_to_dmy (det : Bool) (input : List Char)
    (R : List (List Char × List Char)) (hR : run (graph_ymd det) input = R) :
    run (ymd_to_dmy_graph det) input
      = mdPairs.reverse.flatMap (fun p => compRunWith R (ymd_to_dmy_rw p.1 p.2)) := by
  have h1 : ymd_to_dmy_graph det
      = unionRev (mdPairs.map (fun p => G.comp (graph_ymd det) (ymd_to_dmy_rw p.1 p.2))) := by
    simp only [ymd_to_dmy_graph, ymd_to_dmy_curr]
  rw [h1, run_unionRev_map]
  simp only [run_comp_eq, hR]

theorem run_mdy_to_dmy (det : Bool) (input : List Char)
    (R : List (List Char × List Char)) (hR : run (graph_mdy det) input = R) :
    run (mdy_to_dmy_graph det) input
      = mdPairs.reverse.flatMap (fun p => compRunWith R (mdy_to_dmy_rw p.1 p.2)) := by
  have h1 : mdy_to_dmy_graph det
      = unionRev (mdPairs.map (fun p => G.comp (graph_mdy det) (mdy_to_dmy_rw p.1 p.2))) := by
    simp only [mdy_to_dmy_graph, mdy_to_dmy_curr]
  rw [h1, run_unionRev_map]
  simp only [run_comp_eq, hR]

theorem run_md_to_dm (input : List Char)
    (R : List (List Char × List Char)) (hR : run m_sep_d input = R) :
    run md_to_dm_graph input
      = mdPairs.reverse.flatMap (fun p => compRunWith R (md_to_dm_rw p.1 p.2)) := by
  have h1 : md_to_dm_graph
      = unionRev (mdPairs.map (fun p => G.comp m_sep_d (md_to_dm_rw p.1 p.2))) := by
    simp only [md_to_dm_graph, md_to_dm_curr]
  rw [h1, run_unionRev_map]
  simp only [run_comp_eq, hR]

set_option maxHeartbeats 2000000 in
/-- The deterministic tagger on the year-only input 2012. -/
theorem det_tag_2012 : outputs final_graph_det "2012" = ["year: \"twenty twelve\""] := by
  have hR : run (graph_ymd true) ("2012".data) = [([], "2012".data)] := by decide
  have hlat := run_ymd_to_mdy true ("2012".data) _ hR
  show outputs (G.alt final_graph_det_core (ymd_to_mdy_graph true)) "2012" = _
  rw [outputs_alt, outputs_of_run _ _ _ hlat]
  decide

set_option maxHeartbeats 4000000 in
/-- The deterministic tagger on the numeric YMD input 2012-01-05: the one
    record comes from the YMD-to-MDY reorder lattice and carries no
    preserve_order marker. -/
theorem det_tag_20120105 :
    outputs final_graph_det "2012-01-05"
      = ["month: \"january\" day: \"five\" year: \"twenty twelve\""] := by
  have hR : run (graph_ymd true) ("2012-01-05".data)
      = [([], "2012-01-05".data),
         (("year: \"twenty twelve\" month: \"january\" day: \"five\"").data, [])] := by
    decide
  have hlat := run_ymd_to_mdy true ("2012-01-05".data) _ hR
  show outputs (G.alt final_graph_det_core (ymd_to_mdy_graph true)) "2012-01-05" = _
  rw [outputs_alt, outputs_of_run _ _ _ hlat]
  decide

set_option maxHeartbeats 2000000 in
/-- The deterministic tagger on the financial-period input 1H23: the one
    record carries no preserve_order marker. -/
theorem det_tag_1H23 :
    outputs final_graph_det "1H23"
      = ["text: \"first half\" year: \"twenty three\""] := by
  have hR : run (graph_ymd true) ("1H23".data) = [([], "1H23".data)] := by decide
  have hlat := run_ymd_to_mdy true ("1H23".data) _ hR
  show outputs (G.alt final_graph_det_core (ymd_to_mdy_graph true)) "1H23" = _
  rw [outputs_alt, outputs_of_run _ _ _ hlat]
  decide

set_option maxHeartbeats 4000000 in
/-- The deterministic tagger on the named-month input jan. 5, 2012: the
    one record carries the preserve_order marker, and the comma of the
    input is kept inside the year field. -/
theorem det_tag_jan52012 :
    outputs final_graph_det "jan. 5, 2012"
      = ["month: \"january\" day: \"five\" year: \", twenty twelve\" preserve_order: \"true\""] := by
  have hR : run (graph_ymd true) ("jan. 5, 2012".data) = [([], "jan. 5, 2012".data)] := by
    decide
  have hlat := run_ymd_to_mdy true ("jan. 5, 2012".data) _ hR
  show outputs (G.alt final_graph_det_core (ymd_to_mdy_graph true)) "jan. 5, 2012" = _
  rw [outputs_alt, outputs_of_run _ _ _ hlat]
  decide

set_option maxHeartbeats 4000000 in
/-- The non-deterministic tagger on the numeric YMD input 2012-01-05: the
    one record comes from the YMD-to-DMY reorder lattice (day before
    month); the YMD-to-MDY lattice is not part of this mode. -/
theorem nondet_tag_20120105 :
    outputs final_graph_nondet "2012-01-05"
      = ["day: \"five\" month: \"january\" year: \"twenty twelve\""] := by
  have hMdy : run (graph_mdy false) ("2012-01-05".data) = [] := by decide
  have hMd : run m_sep_d ("2012-01-05".data) = [] := by decide
  have hYmd : run (graph_ymd false) ("2012-01-05".data)
      = [([], "2012-01-05".data),
         (("year: \"twenty twelve\" month: \"january\" day: \"five\"").data, [])] := by
    decide
  have hlat1 := run_mdy_to_dmy false ("2012-01-05".data) _ hMdy
  have hlat2 := run_md_to_dm ("2012-01-05".data) _ hMd
  have hlat3 := run_ymd_to_dmy false ("2012-01-05".data) _ hYmd
  show outputs
      (G.alt final_graph_nondet_core
        (G.alt (G.alt (mdy_to_dmy_graph false) md_to_dm_graph) (ymd_to_dmy_graph false)))
      "2012-01-05" = _
  rw [outputs_alt, outputs_alt, outputs_alt, outputs_of_run _ _ _ hlat1,
    outputs_of_run _ _ _ hlat2, outputs_of_run _ _ _ hlat3]
  decide

theorem run_cross_mem {a b : String} {input : List Char} {pr : List Char × List Char}
    (h : pr ∈ run (G.cross a b) input) :
    a.data.isPrefixOf input = true ∧ pr = (b.data, input.drop a.data.length) := by
  simp only [run] at h
  by_cases hc : a.data.isPrefixOf input
  · rw [if_pos hc] at h
    simp only [List.mem_singleton] at h
    exact ⟨hc, h⟩
  · rw [if_neg hc] at h
    simp at h

theorem run_seq_mem {g h : G} {input : List Char} {pr : List Char × List Char}
    (hm : pr ∈ run (G.seq g h) input) :
    ∃ a ∈ run g input, ∃ b ∈ run h a.2, pr = (a.1 ++ b.1, b.2) := by
  simp only [run, List.mem_flatMap, List.mem_map] at hm
  obtain ⟨a, ha, b, hb, heq⟩ := hm
  exact ⟨a, ha, b, hb, heq.symm⟩

theorem run_alt_mem {g h : G} {input : List Char} {pr : List Char × List Char}
    (hm : pr ∈ run (G.alt g h) input) : pr ∈ run g input ∨ pr ∈ run h input := by
  simpa only [run, List.mem_append] using hm

theorem run_opt_mem {g : G} {input : List Char} {pr : List Char × List Char}
    (hm : pr ∈ run (G.opt g) input) : pr = ([], input) ∨ pr ∈ run g input := by
  simpa only [run, List.mem_cons] using hm

theorem run_punion_mem {g h : G} {input : List Char} {pr : List Char × List Char}
    (hm : pr ∈ run (G.punion g h) input) : pr ∈ run g input ∨ pr ∈ run h input := by
  simp only [run, List.mem_append, List.mem_filter] at hm
  rcases hm with hm | ⟨hm, _⟩
  · exact Or.inl hm
  · exact Or.inr hm

theorem run_comp_mem {g h : G} {input : List Char} {pr : List Char × List Char}
    (hm : pr ∈ run (G.comp g h) input) :
    ∃ a ∈ run g input, ∃ b ∈ run h a.1, b.2.isEmpty = true ∧ pr = (b.1, a.2) := by
  simp only [run, List.mem_flatMap, List.mem_map, List.mem_filter] at hm
  obtain ⟨a, ha, b, ⟨hb, hb2⟩, heq⟩ := hm
  exact ⟨a, ha, b, hb, hb2, heq.symm⟩

theorem run_tbl_mem {l : List (String × String)} {input : List Char}
    {pr : List Char × List Char} (hm : pr ∈ run (G.tbl l) input) :
    ∃ kv ∈ l, kv.1.data.isPrefixOf input = true
      ∧ pr = (kv.2.data, input.drop kv.1.data.length) := by
  simp only [run, List.mem_flatMap] at hm
  obtain ⟨kv, hkv, hin⟩ := hm
  refine ⟨kv, hkv, ?_⟩
  by_cases hc : kv.1.data.isPrefixOf input
  · rw [if_pos hc] at hin
    simp only [List.mem_singleton] at hin
    exact ⟨hc, hin⟩
  · rw [if_neg hc] at hin
    simp at hin

theorem run_chone_mem {p : Char → Bool} {f : Char → List Char} {input : List Char}
    {pr : List Char × List Char} (hm : pr ∈ run (G.chone p f) input) :
    ∃ c rest, input = c :: rest ∧ p c = true ∧ pr = (f c, rest) := by
  cases input with
  | nil => simp [run] at hm
  | cons c rest =>
    simp only [run] at hm
    by_cases hc : p c
    · rw [if_pos hc] at hm
      simp only [List.mem_singleton] at hm
      exact ⟨c, rest, rfl, hc, hm⟩
    · rw [if_neg hc] at hm
      simp at hm

theorem run_diffAcc_mem {g h : G} {input : List Char} {pr : List Char × List Char}
    (hm : pr ∈ run (G.diffAcc g h) input) :
    ∃ a ∈ run g input,
      ((run h (input.take (input.length - a.2.length))).filter
        (fun qr => qr.2.isEmpty)).isEmpty = true
      ∧ pr = (input.take (input.length - a.2.length), a.2) := by
  simp only [run, List.mem_filterMap] at hm
  obtain ⟨a, ha, hin⟩ := hm
  refine ⟨a, ha, ?_⟩
  by_cases hc : ((run h (input.take (input.length - a.2.length))).filter
      (fun qr => qr.2.isEmpty)).isEmpty
  · rw [if_pos hc] at hin
    simp only [Option.some_inj] at hin
    exact ⟨hc, hin.symm⟩
  · rw [if_neg hc] at hin
    simp at hin

theorem outputs_mem {g : G} {s o : String} (hm : o ∈ outputs g s) :
    ∃ pr ∈ run g s.data, pr.2 = [] ∧ o = String.mk pr.1 := by
  simp only [outputs, List.mem_map, List.mem_filter] at hm
  obtain ⟨pr, ⟨hpr, h2⟩, heq⟩ := hm
  exact ⟨pr, hpr, by simpa using h2, heq.symm⟩

theorem eq_of_isPrefixOf_drop_nil {l1 l2 : List Char}
    (hp : l1.isPrefixOf l2 = true) (hd : l2.drop l1.length = []) : l2 = l1 := by
  obtain ⟨t, ht⟩ := List.isPrefixOf_iff_prefix.mp hp
  subst ht
  rw [List.drop_left] at hd
  rw [hd, List.append_nil]

theorem run_del_out {t : String} {input : List Char} {pr : List Char × List Char}
    (h : pr ∈ run (del t) input) : pr.1 = [] := by
  obtain ⟨hp, he⟩ := run_cross_mem h
  rw [he]

theorem run_opt_del_out {t : String} {input : List Char} {pr : List Char × List Char}
    (h : pr ∈ run (G.opt (del t)) input) : pr.1 = [] := by
  rcases run_opt_mem h with he | hm
  · rw [he]
  · exact run_del_out hm

theorem run_delEndings_out {input : List Char} {pr : List Char × List Char}
    (h : pr ∈ run delEndings input) : pr.1 = [] := by
  simp only [delEndings] at h
  rcases run_alt_mem h with h | h <;> rcases run_alt_mem h with h | h <;>
    rcases run_alt_mem h with h | h <;> exact run_del_out h

theorem run_dayShape_shape {input : List Char} {pr : List Char × List Char}
    (h : pr ∈ run dayShape input) : dayShapeOK pr.1 = true := by
  simp only [dayShape] at h
  rcases run_alt_mem h with h | h
  · rcases run_alt_mem h with h | h
    · obtain ⟨a, ha, b, hb, he⟩ := run_seq_mem h
      obtain ⟨c, rest, hin, hpc, hbe⟩ := run_chone_mem hb
      rcases run_alt_mem ha with ha | ha <;> obtain ⟨hpre, hae⟩ := run_cross_mem ha <;>
        rw [he, hae, hbe] <;> simp [dayShapeOK, hpc]
    · obtain ⟨c, rest, hin, hpc, he⟩ := run_chone_mem h
      rw [he]
      simp [dayShapeOK, hpc]
  · obtain ⟨a, ha, b, hb, he⟩ := run_seq_mem h
    obtain ⟨hpre, hae⟩ := run_cross_mem ha
    rcases run_alt_mem hb with hb | hb <;> obtain ⟨hpre2, hbe⟩ := run_cross_mem hb <;>
      rw [he, hae, hbe] <;> simp [dayShapeOK]

/-- Every cardinal-table key of a day shape names a value from 1 to 31. -/
theorem card_shape_bound :
    ∀ kv ∈ cardinalTbl, dayShapeOK kv.1.data = true →
      ∃ n ∈ List.range 32, 1 ≤ n ∧ kv.1 = toString n ∧ kv.2 = numWord n := by
  decide

theorem chstarRun_const_nil_out {p : Char → Bool} {input : List Char}
    {pr : List Char × List Char}
    (h : pr ∈ chstarRun p (fun _ => []) input) : pr.1 = [] := by
  induction input generalizing pr with
  | nil =>
    simp only [chstarRun, List.mem_singleton] at h
    rw [h]
  | cons c rest ih =>
    simp only [chstarRun, List.mem_cons] at h
    rcases h with h | h
    · rw [h]
    · by_cases hc : p c
      · rw [if_pos hc] at h
        simp only [List.mem_map] at h
        obtain ⟨q, hq, he⟩ := h
        have := ih hq
        rw [← he]
        simpa using this
      · rw [if_neg hc] at h
        simp at h

theorem run_DELETE_SPACE_out {input : List Char} {pr : List Char × List Char}
    (h : pr ∈ run DELETE_SPACE input) : pr.1 = [] :=
  chstarRun_const_nil_out h

theorem prefix_head_ne {P Q l : List Char} {c1 c2 : Char} {P2 Q2 : List Char}
    (hP : P = c1 :: P2) (hQ : Q = c2 :: Q2) (hne : c1 ≠ c2)
    (h1 : P.isPrefixOf l = true) (h2 : Q.isPrefixOf l = true) : False := by
  obtain ⟨t1, ht1⟩ := List.isPrefixOf_iff_prefix.mp h1
  obtain ⟨t2, ht2⟩ := List.isPrefixOf_iff_prefix.mp h2
  rw [hP] at ht1
  rw [hQ] at ht2
  rw [← ht1] at ht2
  simp only [List.cons_append, List.cons.injEq] at ht2
  exact hne ht2.1.symm

/-- Any accepted parse of the numeric day-month-year family starts with a
    two-digit day that the month-number table rejects and the day grammar
    accepts. -/
theorem dmyNum_day_mem (det : Bool) (x : String) (s o : String)
    (ho : o ∈ outputs (dmyNum det x) s) :
    ∃ c1 c2 rest, s.data = c1 :: c2 :: rest ∧ c1.isDigit = true ∧ c2.isDigit = true
      ∧ outputs month_numbers_graph (String.mk [c1, c2]) = []
      ∧ outputs day_graph (String.mk [c1, c2]) ≠ [] := by
  obtain ⟨pr, hpr, hrem, hoeq⟩ := outputs_mem ho
  simp only [dmyNum] at hpr
  obtain ⟨a5, ha5, b, hb, he5⟩ := run_seq_mem hpr
  obtain ⟨a4, ha4, b4, hb4, he4⟩ := run_seq_mem ha5
  obtain ⟨a3, ha3, b3, hb3, he3⟩ := run_seq_mem ha4
  obtain ⟨a2, ha2, b2, hb2, he2⟩ := run_seq_mem ha3
  obtain ⟨a1, ha1, b1, hb1, he1⟩ := run_seq_mem ha2
  simp only [day_ex_month] at ha1
  obtain ⟨w, hw, v, hv, hv2, heqc⟩ := run_comp_mem ha1
  obtain ⟨u, hu, hcond, heqw⟩ := run_diffAcc_mem hw
  obtain ⟨d1, hd1, d2, hd2, hequ⟩ := run_seq_mem hu
  obtain ⟨c1, rest1, hs1, hp1, hd1e⟩ := run_chone_mem hd1
  rw [hd1e] at hd2
  obtain ⟨c2, rest, hs2, hp2, hd2e⟩ := run_chone_mem hd2
  have hrest1 : rest1 = c2 :: rest := hs2
  have hu2 : u.2 = rest := by rw [hequ, hd2e]
  have hsfull : s.data = c1 :: c2 :: rest := by rw [hs1, hrest1]
  have htake : s.data.take (s.data.length - u.2.length) = [c1, c2] := by
    rw [hsfull, hu2]
    have hlen : (c1 :: c2 :: rest).length - rest.length = 2 := by
      simp only [List.length_cons]
      omega
    rw [hlen]
    simp
  refine ⟨c1, c2, rest, hsfull, hp1, hp2, ?_, ?_⟩
  · rw [htake] at hcond
    simp only [run] at hcond
    rw [List.filter_map, List.isEmpty_iff] at hcond
    have hfe : (run month_numbers_graph [c1, c2]).filter
        ((fun qr => qr.2.isEmpty)
          ∘ (fun pr => ([c1, c2].take ([c1, c2].length - pr.2.length), pr.2))) = [] :=
      List.map_eq_nil_iff.mp hcond
    have hfe2 : (run month_numbers_graph [c1, c2]).filter (fun pr => pr.2.isEmpty) = [] := by
      simpa [Function.comp] using hfe
    rw [outputs]
    rw [show (String.mk [c1, c2]).data = [c1, c2] from rfl, hfe2]
    rfl
  · have hw1 : w.1 = [c1, c2] := by rw [heqw]; exact htake
    rw [hw1] at hv
    have hmem : String.mk v.1 ∈ outputs day_graph (String.mk [c1, c2]) := by
      rw [outputs]
      refine List.mem_map.mpr ⟨v, List.mem_filter.mpr ⟨?_, hv2⟩, rfl⟩
      exact hv
    exact List.ne_nil_of_mem hmem

/-- Every output of day_graph is the tagged cardinal word of a day between
    1 and 31. -/
theorem day_graph_mem (s o : String) (ho : o ∈ outputs day_graph s) :
    ∃ n, 1 ≤ n ∧ n ≤ 31 ∧ o = "day: \"" ++ numWord n ++ "\"" := by
  obtain ⟨pr, hpr, hrem, hoeq⟩ := outputs_mem ho
  simp only [day_graph] at hpr
  obtain ⟨a, ha, b, hb, heA⟩ := run_seq_mem hpr
  obtain ⟨hbp, hbe⟩ := run_cross_mem hb
  obtain ⟨a1, ha1, d, hd, heB⟩ := run_seq_mem ha
  obtain ⟨e, heI, f, hf, heC⟩ := run_seq_mem ha1
  obtain ⟨hep, hee⟩ := run_cross_mem heI
  have hf1 : f.1 = [] := run_opt_del_out hf
  obtain ⟨u, hu, v, hv, hv2, heD⟩ := run_comp_mem hd
  obtain ⟨w, hw, xx, hx, heE⟩ := run_seq_mem hu
  have hx1 : xx.1 = [] := by
    rcases run_opt_mem hx with he | hm
    · rw [he]
    · exact run_delEndings_out hm
  have hshape : dayShapeOK w.1 = true := run_dayShape_shape hw
  obtain ⟨kv, hkv, hkp, hve⟩ := run_tbl_mem hv
  have hu1 : u.1 = w.1 := by rw [heE, hx1, List.append_nil]
  have hveq : u.1 = kv.1.data := by
    have hv2e : v.2 = [] := List.isEmpty_iff.mp hv2
    rw [hve] at hv2e
    exact eq_of_isPrefixOf_drop_nil hkp hv2e
  have hshape2 : dayShapeOK kv.1.data = true := by
    rw [← hveq, hu1]
    exact hshape
  obtain ⟨n, hnr, hn1, hk1, hk2⟩ := card_shape_bound kv hkv hshape2
  refine ⟨n, hn1, ?_, ?_⟩
  · have := List.mem_range.mp hnr
    omega
  · rw [hoeq, heA, heB, heC, hee, hf1, heD, hve, hk2, hbe]
    show String.mk ((("day: \"".data ++ []) ++ (numWord n).data) ++ "\"".data)
        = "day: \"" ++ numWord n ++ "\""
    apply String.ext
    simp [String.data_append]

/-- Every output of the deterministic verbalizer on a record whose first
    field is the day field begins with "the ". -/
theorem verbalizer_day_first (r out : String)
    (ho : out ∈ outputs (final_verbalizer true) r)
    (hday : ("day:").data.isPrefixOf r.data = true) :
    ("the ").data.isPrefixOf out.data = true := by
  obtain ⟨pr, hpr, hrem, hoeq⟩ := outputs_mem ho
  simp only [final_verbalizer] at hpr
  obtain ⟨a, ha, mkk, hmk, heA⟩ := run_seq_mem hpr
  obtain ⟨a1, ha1, ds, hds, heB⟩ := run_seq_mem ha
  have hds1 : ds.1 = [] := run_DELETE_SPACE_out hds
  have hthe : ∃ t, a1.1 = ("the ").data ++ t := by
    rcases run_alt_mem ha1 with hc | hc
    · rcases run_alt_mem hc with hc | hc
      · rcases run_punion_mem hc with hc | hc
        · exfalso
          simp only [graph_mdy_v] at hc
          obtain ⟨m1, hm1, _, _, _⟩ := run_seq_mem hc
          obtain ⟨m2, hm2, _, _, _⟩ := run_seq_mem hm1
          simp only [monthV] at hm2
          obtain ⟨m3, hm3, _, _, _⟩ := run_seq_mem hm2
          obtain ⟨m4, hm4, _, _, _⟩ := run_seq_mem hm3
          obtain ⟨m5, hm5, _, _, _⟩ := run_seq_mem hm4
          obtain ⟨m6, hm6, _, _, _⟩ := run_seq_mem hm5
          obtain ⟨hpre, _⟩ := run_cross_mem hm6
          exact prefix_head_ne rfl rfl (by decide) hpre hday
        · simp only [graph_dmy_v] at hc
          obtain ⟨m1, hm1, k5, _, he1⟩ := run_seq_mem hc
          obtain ⟨m2, hm2, k4, _, he2⟩ := run_seq_mem hm1
          obtain ⟨m3, hm3, k3, _, he3⟩ := run_seq_mem hm2
          obtain ⟨m4, hm4, k2, _, he4⟩ := run_seq_mem hm3
          obtain ⟨m5, hm5, k1, _, he5⟩ := run_seq_mem hm4
          obtain ⟨_, he6⟩ := run_cross_mem hm5
          refine ⟨(((k1.1 ++ k2.1) ++ k3.1) ++ k4.1) ++ k5.1, ?_⟩
          rw [he1, he2, he3, he4, he5, he6]
          simp [List.append_assoc]
      · exfalso
        simp only [yearV] at hc
        obtain ⟨m1, hm1, _, _, _⟩ := run_seq_mem hc
        obtain ⟨m2, hm2, _, _, _⟩ := run_seq_mem hm1
        obtain ⟨m3, hm3, _, _, _⟩ := run_seq_mem hm2
        obtain ⟨m4, hm4, _, _, _⟩ := run_seq_mem hm3
        obtain ⟨m5, hm5, _, _, _⟩ := run_seq_mem hm4
        obtain ⟨hpre, _⟩ := run_cross_mem hm5
        exact prefix_head_ne rfl rfl (by decide) hpre hday
    · simp only [graph_fy_v] at hc
      obtain ⟨m1, hm1, k3, _, he1⟩ := run_seq_mem hc
      obtain ⟨m2, hm2, k2, _, he2⟩ := run_seq_mem hm1
      obtain ⟨m3, hm3, k1, _, he3⟩ := run_seq_mem hm2
      obtain ⟨_, he4⟩ := run_cross_mem hm3
      refine ⟨((k1.1 ++ k2.1) ++ k3.1), ?_⟩
      rw [he1, he2, he3, he4]
      simp [List.append_assoc]
  obtain ⟨t, ht⟩ := hthe
  rw [hoeq]
  show ("the ").data.isPrefixOf pr.1 = true
  rw [heA, heB, ht, hds1]
  apply List.isPrefixOf_iff_prefix.mpr
  exact ⟨(t ++ []) ++ mkk.1, by simp [List.append_assoc]⟩

/-- C1: construction of the Date tagger does not succeed in both modes:
    the deterministic (single-output) build stops with a NameError because
    the bare month/day grammar m_sep_d is assigned only in the
    multi-output branch yet is read unconditionally in the reorder-lattice
    loop; the non-deterministic build runs to completion. -/
theorem C1_build_tagger_single_output_mode_fails :
    build_tagger true = Except.error "NameError: name m_sep_d is not defined"
      ∧ (build_tagger false).isOk = true :=
  ⟨rfl, rfl⟩

/-- C2 (counterexample): the year-only input 2012 is accepted by the
    deterministic tagger grammar, and its unique record
    year: "twenty twelve" does not carry the preserve_order marker, against
    the claim that every record in single-output mode carries it. -/
theorem C2_counterexample :
    outputs final_graph_det "2012" = ["year: \"twenty twelve\""]
      ∧ ∀ r ∈ outputs final_graph_det "2012",
          (" preserve_order: \"true\"").data.isSuffixOf r.data = false := by
  refine ⟨det_tag_2012, ?_⟩
  rw [det_tag_2012]
  decide

/-- C2 (amended): in the deterministic (single-output) grammar, exactly
    one record is emitted on these inputs, and the preserve_order marker
    is carried by the MDY/DMY named-month families only (e.g.
    jan. 5, 2012); year-only, financial-period and YMD-to-MDY
    reorder-lattice records carry no marker. -/
theorem C2_amended :
    outputs final_graph_det "2012" = ["year: \"twenty twelve\""]
      ∧ outputs final_graph_det "1H23"
          = ["text: \"first half\" year: \"twenty three\""]
      ∧ outputs final_graph_det "2012-01-05"
          = ["month: \"january\" day: \"five\" year: \"twenty twelve\""]
      ∧ outputs final_graph_det "jan. 5, 2012"
          = ["month: \"january\" day: \"five\" year: \", twenty twelve\" preserve_order: \"true\""] :=
  ⟨det_tag_2012, det_tag_1H23, det_tag_20120105, det_tag_jan52012⟩

/-- C3 (counterexample): on the input 2012-01-05 the single-output record,
    produced by the YMD-to-MDY lattice, is not a member of the
    multi-output record set, against the claimed single-output subset of
    multi-output. -/
theorem C3_counterexample :
    outputs final_graph_det "2012-01-05"
        = ["month: \"january\" day: \"five\" year: \"twenty twelve\""]
      ∧ "month: \"january\" day: \"five\" year: \"twenty twelve\""
          ∉ outputs final_graph_nondet "2012-01-05" := by
  refine ⟨det_tag_20120105, ?_⟩
  rw [nondet_tag_20120105]
  decide

/-- C3 (amended): single-output mode unions in only the YMD-to-MDY
    lattice, and multi-output mode unions in the MDY-to-DMY, bare
    month/day and YMD-to-DMY lattices but not YMD-to-MDY; hence on
    2012-01-05 single-output yields the month-day-year record while
    multi-output yields only the day-month-year record, and neither
    record set contains the other mode record. -/
theorem C3_amended :
    outputs final_graph_det "2012-01-05"
        = ["month: \"january\" day: \"five\" year: \"twenty twelve\""]
      ∧ outputs final_graph_nondet "2012-01-05"
          = ["day: \"five\" month: \"january\" year: \"twenty twelve\""] :=
  ⟨det_tag_20120105, nondet_tag_20120105⟩

/-- C6: on 2000 (and 2000s) both the thousand-collapse form and the
    hundred-paired form match; the deterministic four-digit year graph
    yields only the thousand-collapse output by strict priority, while the
    non-deterministic graph yields both. -/
theorem C6_thousand_priority :
    outputs (get_four_digit_year_graph true) "2000" = ["two thousand"]
      ∧ outputs (get_four_digit_year_graph false) "2000"
          = ["twenty hundred", "two thousand"]
      ∧ outputs (get_four_digit_year_graph true) "2000s" = ["two thousands"]
      ∧ outputs (get_four_digit_year_graph false) "2000s"
          = ["twenty hundreds", "two thousands"] := by
  refine ⟨?_, ?_, ?_, ?_⟩ <;> decide

/-- C7 (counterexample): verbalizing the record tagged from jan. 5, 2012
    yields "january fifth , twenty twelve" - the comma stored inside the
    year field survives - not the claimed "january fifth twenty twelve". -/
theorem C7_counterexample :
    outputs (final_verbalizer true)
        "month: \"january\" day: \"five\" year: \", twenty twelve\" preserve_order: \"true\""
        = ["january fifth , twenty twelve"]
      ∧ "january fifth twenty twelve"
          ∉ outputs (final_verbalizer true)
              "month: \"january\" day: \"five\" year: \", twenty twelve\" preserve_order: \"true\"" := by
  refine ⟨?_, ?_⟩ <;> decide

/-- C7 (amended): tagging jan. 5, 2012 produces the record
    month: "january" day: "five" year: ", twenty twelve"
    preserve_order: "true", and verbalizing that record produces exactly
    "january fifth , twenty twelve", the comma of the year field kept in
    the spoken text. -/
theorem C7_amended :
    outputs final_graph_det "jan. 5, 2012"
        = ["month: \"january\" day: \"five\" year: \", twenty twelve\" preserve_order: \"true\""]
      ∧ outputs (final_verbalizer true)
          "month: \"january\" day: \"five\" year: \", twenty twelve\" preserve_order: \"true\""
          = ["january fifth , twenty twelve"] :=
  ⟨det_tag_jan52012, by decide⟩

/-- C9: in the two-digit grammar every leading-zero numeral 01 to 09 maps
    to the oh-prefixed form alone in single-output mode and to the
    oh-prefixed and zero-prefixed forms, as an unweighted union, in
    multi-output mode. -/
theorem C9_leading_zero_decade :
    ((List.range 9).all (fun k =>
        (outputs (get_ties_graph true) ("0" ++ toString (k + 1))
            == ["oh " ++ onesWord (k + 1)])
          && (outputs (get_ties_graph false) ("0" ++ toString (k + 1))
            == ["oh " ++ onesWord (k + 1), "zero " ++ onesWord (k + 1)]))) = true := by
  decide

/-- C10: the era-suffixed year branch is one grammar shared by both modes
    and built over the deterministic four-digit graph, so an era-suffixed
    year has exactly one spoken form in either mode (4200 B.C., and
    1805 B.C. whose bare year is ambiguous in multi-output mode). -/
theorem C10_era_year_deterministic :
    (∀ b : Bool, _get_year_graph b = G.alt (year_graph_mode_part b) year_with_suffix)
      ∧ outputs (_get_year_graph true) "4200 B.C." = ["forty two hundred B C"]
      ∧ outputs (_get_year_graph false) "4200 B.C." = ["forty two hundred B C"]
      ∧ outputs (_get_year_graph true) "1805 B.C." = ["eighteen oh five B C"]
      ∧ outputs (_get_year_graph false) "1805 B.C." = ["eighteen oh five B C"]
      ∧ outputs (_get_year_graph false) "1805"
          = ["eighteen oh five", "eighteen zero five"] := by
  refine ⟨fun b => rfl, ?_, ?_, ?_, ?_, ?_⟩ <;> decide

/-- C4: in the numeric day-month-year family, in either mode and for any
    separator, every accepted input starts with a two-digit day numeral
    that the month-number table does not accept and the day grammar does;
    e.g. 05/06/2012 has no accepting path because 05 is a month number,
    while 13/06/2012 is accepted with day thirteen. -/
theorem C4_dmy_day_excludes_month_numbers :
    (∀ (det : Bool) (x s o : String), o ∈ outputs (dmyNum det x) s →
        ∃ c1 c2 rest, s.data = c1 :: c2 :: rest ∧ c1.isDigit = true ∧ c2.isDigit = true
          ∧ outputs month_numbers_graph (String.mk [c1, c2]) = []
          ∧ outputs day_graph (String.mk [c1, c2]) ≠ [])
      ∧ outputs (graph_dmy true) "05/06/2012" = []
      ∧ outputs (graph_dmy true) "13/06/2012"
          = ["day: \"thirteen\" month: \"june\" year: \"twenty twelve\""] := by
  refine ⟨dmyNum_day_mem, ?_, ?_⟩ <;> decide

/-- C4 (witness): the universal part applied to the accepted input
    13/06/2012 in deterministic mode with separator slash. -/
theorem C4_dmy_day_excludes_month_numbers_witness :
    ∃ c1 c2 rest, ("13/06/2012").data = c1 :: c2 :: rest
      ∧ c1.isDigit = true ∧ c2.isDigit = true
      ∧ outputs month_numbers_graph (String.mk [c1, c2]) = []
      ∧ outputs day_graph (String.mk [c1, c2]) ≠ [] :=
  C4_dmy_day_excludes_month_numbers.1 true "/" "13/06/2012"
    "day: \"thirteen\" month: \"june\" year: \"twenty twelve\"" (by decide)

/-- C5: every output of the day grammar is the tagged cardinal word of a
    day between 1 and 31; the day numerals 1 to 31 are all accepted, and
    00, 32 and 39 have no accepting path, also under the optional
    leading-zero deletion of the numeric families. -/
theorem C5_day_numeral_bounds :
    (∀ s o, o ∈ outputs day_graph s →
        ∃ n, 1 ≤ n ∧ n ≤ 31 ∧ o = "day: \"" ++ numWord n ++ "\"")
      ∧ outputs day_graph "00" = []
      ∧ outputs day_graph "32" = []
      ∧ outputs day_graph "39" = []
      ∧ outputs (G.seq (G.opt (del "0")) day_graph) "00" = []
      ∧ ((List.range 31).all fun k =>
          outputs day_graph (toString (k + 1))
            == ["day: \"" ++ numWord (k + 1) ++ "\""]) = true := by
  refine ⟨day_graph_mem, ?_, ?_, ?_, ?_, ?_⟩ <;> decide

/-- C5 (witness): the universal part applied to the accepted day numeral
    the 21st. -/
theorem C5_day_numeral_bounds_witness :
    ∃ n, 1 ≤ n ∧ n ≤ 31
      ∧ ("day: \"twenty one\"" : String) = "day: \"" ++ numWord n ++ "\"" :=
  C5_day_numeral_bounds.1 "the 21st" "day: \"twenty one\"" (by decide)

/-- C8 (counterexample): the verbalizer does not delete the value of a
    field_order field: the record month: "may" field_order: "z" renders as
    "mayz", so order-control field content appears in the output text,
    against the claim. -/
theorem C8_counterexample :
    outputs (final_verbalizer true) "month: \"may\" field_order: \"z\"" = ["mayz"]
      ∧ "may" ∉ outputs (final_verbalizer true) "month: \"may\" field_order: \"z\"" := by
  refine ⟨?_, ?_⟩ <;> decide

/-- C8 (amended): rendering order follows the fixed tie-break: a record
    whose first field is the day field renders day-first, beginning
    "the "; month-first records render month-first; the preserve_order
    marker is deleted and absent from the output; the field_order field
    name and quotes are deleted but its one-character value is passed
    through into the output text (month: "may" field_order: "z" gives
    "mayz"). -/
theorem C8_verbalizer_order_tie_break :
    (∀ r out, out ∈ outputs (final_verbalizer true) r →
        ("day:").data.isPrefixOf r.data = true →
        ("the ").data.isPrefixOf out.data = true)
      ∧ outputs (final_verbalizer true)
          "month: \"february\" day: \"five\" year: \"twenty twelve\" preserve_order: \"true\""
          = ["february fifth twenty twelve"]
      ∧ outputs (final_verbalizer true)
          "day: \"five\" month: \"february\" year: \"twenty twelve\" preserve_order: \"true\""
          = ["the fifth of february twenty twelve"]
      ∧ outputs (final_verbalizer true) "month: \"may\" field_order: \"z\"" = ["mayz"] := by
  refine ⟨verbalizer_day_first, ?_, ?_, ?_⟩ <;> decide

/-- C8 (witness): the universal part applied to a day-first record. -/
theorem C8_verbalizer_order_tie_break_witness :
    ("the ").data.isPrefixOf ("the fifth of february twenty twelve").data = true :=
  C8_verbalizer_order_tie_break.1
    "day: \"five\" month: \"february\" year: \"twenty twelve\" preserve_order: \"true\""
    "the fifth of february twenty twelve" (by decide) (by decide)

end TN



